import Mathlib

/-!
Verification development for the `sw-cli` package (src/packages/sw-cli/src/index.js).

The source is a small interactive CLI wrapper class `SWCli`.  Its behaviour is a
sequential promise chain over external collaborators: a config store
(`getConfigFile` / `saveConfigFile`), five interactive questions, a glob-pattern
builder, and the `sw-build` delegate.  We embed the control flow of `index.js`
shallowly: every external call is represented by an `Event` recorded in a trace,
and its outcome is drawn from an `Env` record of scripted results, with
`Except Unit` standing for promise resolution/rejection.  A run of a handler is
therefore a pure value `List Event × Except Unit α`: the ordered trace of the
external calls it made, and whether the resulting promise resolved or rejected.

Node's `path.join` / `path.relative` / `path.sep` (posix flavour) are embedded
faithfully, since the root-directory normalisation and `dest` computation in
`_generateSW` / `_generateBuildManifest` depend on their exact semantics.
-/

/-- JavaScript truthiness of a possibly-absent string field: `undefined` and
`''` are falsy, every other string is truthy. -/
def strIsSet : Option String → Bool
  | none => false
  | some s => !s.data.isEmpty

/-- JavaScript truthiness of a possibly-absent array field: `undefined` is
falsy, every array (even `[]`) is truthy. -/
def listIsSet : Option (List String) → Bool
  | none => false
  | some _ => true

/-- The `config` object threaded through `_generateSW` (src/index.js line 139):
all fields start absent (`{}`), and `wasSaved` is only ever set to `true` when a
saved configuration file was loaded. -/
structure Config where
  rootDirectory : Option String := none
  globPatterns : Option (List String) := none
  globIgnores : Option (List String) := none
  dest : Option String := none
  wasSaved : Bool := false
  deriving Repr, DecidableEq

/-- The object literal passed to `swBuild.generateFileManifest`
(src/index.js lines 224-231).  It has exactly the four fields of the literal;
in particular there is no `wasSaved` field. -/
structure ManifestConfig where
  rootDirectory : String
  globPatterns : List String
  globIgnores : List String
  dest : String
  deriving Repr, DecidableEq

/-! ### Node posix `path` model

`path.sep`, `path.join`, `path.normalize`, `path.resolve`, `path.relative`
for the posix platform, following Node's implementation: `join` concatenates
the non-empty parts with `/` and normalises; `normalize` resolves `.` and `..`
segments (keeping leading `..` for relative paths), keeps a trailing separator,
and collapses to `.` or `./` when nothing remains. -/

/-- `path.sep` on posix. -/
def pathSep : String := "/"

/-- Split a character list on `/`, like `String.splitOn "/"` (defined over
`List Char` by structural recursion so that proofs can evaluate it). -/
def splitSep : List Char → List (List Char)
  | [] => [[]]
  | c :: rest =>
    if c = '/' then [] :: splitSep rest
    else
      match splitSep rest with
      | s :: ss => (c :: s) :: ss
      | [] => [[c]]

/-- Join segments back with `/` between them. -/
def joinSegs : List (List Char) → List Char
  | [] => []
  | [s] => s
  | s :: ss => s ++ '/' :: joinSegs ss

/-- Segment resolution of Node's `normalizeString`: drop empty and `.`
segments, resolve `..` against the accumulated stack, keeping `..` above the
root only when `allowAboveRoot` (i.e. for relative paths). -/
def normSegs (allowAboveRoot : Bool) : List (List Char) → List (List Char) → List (List Char)
  | acc, [] => acc.reverse
  | acc, seg :: rest =>
    if seg = [] ∨ seg = ['.'] then normSegs allowAboveRoot acc rest
    else if seg = ['.', '.'] then
      match acc with
      | top :: acc2 =>
        if top = ['.', '.'] then normSegs allowAboveRoot (['.', '.'] :: top :: acc2) rest
        else normSegs allowAboveRoot acc2 rest
      | [] =>
        if allowAboveRoot then normSegs allowAboveRoot [['.', '.']] rest
        else normSegs allowAboveRoot [] rest
    else normSegs allowAboveRoot (seg :: acc) rest

/-- Node `path.posix.normalize` over the character list of the path. -/
def normalizeChars (p : List Char) : List Char :=
  if p = [] then ['.']
  else
    let isAbs := p.head? = some '/'
    let trail := p.getLast? = some '/'
    let segs := normSegs (!isAbs) [] (splitSep p)
    if segs = [] then
      if isAbs then ['/'] else if trail then ['.', '/'] else ['.']
    else
      let body := joinSegs segs
      let body := if trail then body ++ ['/'] else body
      if isAbs then '/' :: body else body

/-- Node `path.posix.normalize`. -/
def pathNormalize (p : String) : String :=
  String.mk (normalizeChars p.data)

/-- Node `path.posix.join`: keep the non-empty parts, concatenate with `/`,
normalise; `.` when every part is empty. -/
def pathJoin (parts : List String) : String :=
  let nonEmpty := (parts.map String.data).filter (fun s => s ≠ [])
  if nonEmpty = [] then "." else String.mk (normalizeChars (joinSegs nonEmpty))

/-- Node `path.posix.resolve` of one argument against an absolute working
directory `cwd` (the only form `index.js` needs, via `path.relative`). -/
def pathResolve (cwd : String) (p : String) : String :=
  let combined := if p.data.head? = some '/' then p.data else cwd.data ++ '/' :: p.data
  String.mk ('/' :: joinSegs (normSegs false [] (splitSep combined)))

/-- Strip the common leading segments of two segment lists. -/
def dropCommon : List (List Char) → List (List Char) → List (List Char) × List (List Char)
  | a :: as, b :: bs => if a = b then dropCommon as bs else (a :: as, b :: bs)
  | as, bs => (as, bs)

/-- Node `path.posix.relative`: resolve both paths against `cwd`, drop the
common prefix, go up with `..` for what remains of `fromPath` and down into
what remains of `toPath`. -/
def pathRelative (cwd : String) (fromPath toPath : String) : String :=
  let f := (pathResolve cwd fromPath).data
  let t := (pathResolve cwd toPath).data
  if f = t then ""
  else
    let fsegs := (splitSep f).filter (fun s => s ≠ [])
    let tsegs := (splitSep t).filter (fun s => s ≠ [])
    let rem := dropCommon fsegs tsegs
    String.mk (joinSegs (rem.1.map (fun _ => ['.', '.']) ++ rem.2))

/-- The root-directory normalisation of `_generateSW` (src/index.js line 155):
`path.join('.', path.relative(process.cwd(), rDirectory), path.sep)`.  The
comment above it in the source promises `'' => './'` and `'build' => './build/'`. -/
def normalizeRootAnswer (cwd answer : String) : String :=
  pathJoin [".", pathRelative cwd cwd answer, pathSep]

/-- Modelled from the spec: `package.json` sits outside `src/`; the CLI prints
the opaque `pkg.version` string for `-v`/`--version`.  Its concrete value is
irrelevant to every claim. -/
def pkgVersion : String := "0.0.1"

/-- One observable external call of `index.js`: a config-store access, an
interactive question, a log, or a `sw-build` delegate invocation. -/
inductive Event where
  | getConfig : Event
  | askRoot : Event
  | askExtensions (rootDirectory : String) : Event
  | askSWName : Event
  | askSaveConfig : Event
  | askManifestName : Event
  | saveConfig (c : Config) : Event
  | generateSW (c : Config) : Event
  | generateFileManifest (c : ManifestConfig) : Event
  | logHelp : Event
  | logVersion (v : String) : Event
  | logError (msg : String) : Event
  deriving Repr, DecidableEq

/-- The scripted outcomes of every external collaborator for one invocation:
what the config store returns, what each interactive question answers (or
`error ()` when the user aborts, i.e. the promise rejects), what the save and
the two `sw-build` delegate calls return, the working directory, and the pure
glob-pattern builder (`lib/utils/generate-glob-pattern`, outside `src/`; per
the spec a pure function of root directory and extensions). -/
structure Env where
  cwd : String := "/app"
  savedConfig : Except Unit (Option Config) := Except.ok none
  rootAnswer : Except Unit String := Except.ok ""
  extensionsAnswer : Except Unit (List String) := Except.ok []
  swNameAnswer : Except Unit String := Except.ok ""
  saveAnswer : Except Unit Bool := Except.ok false
  manifestNameAnswer : Except Unit String := Except.ok ""
  saveResult : Except Unit Unit := Except.ok ()
  generateSWResult : Except Unit Unit := Except.ok ()
  generateFileManifestResult : Except Unit Unit := Except.ok ()
  globPattern : String → List String → String := fun _ _ => ""

/-- A run fragment: the trace of external calls made, and the promise outcome. -/
abbrev RunOut (α : Type) : Type := List Event × Except Unit α

/-- Promise sequencing (`.then`): on rejection the rest of the chain is
skipped and the rejection propagates; on resolution the continuation runs and
its trace is appended. -/
def andThen (x : RunOut α) (f : α → RunOut β) : RunOut β :=
  match x with
  | (tr, Except.error e) => (tr, Except.error e)
  | (tr, Except.ok a) => (tr ++ (f a).1, (f a).2)

/-- Lines 141-147: `getConfigFile()` then, when a saved configuration came
back, adopt it and set `wasSaved = true`; otherwise keep the fresh `{}`. -/
def loadConfigStep (env : Env) : RunOut Config :=
  andThen ([Event.getConfig], env.savedConfig) fun saved =>
    match saved with
    | some c => ([], Except.ok { c with wasSaved := true })
    | none => ([], Except.ok {})

/-- Lines 148-159: when `config.rootDirectory` is falsy, ask for the root of
the web app and store the normalised answer. -/
def rootStep (env : Env) (config : Config) : RunOut Config :=
  if !strIsSet config.rootDirectory then
    andThen ([Event.askRoot], env.rootAnswer) fun rDirectory =>
      ([], Except.ok { config with
        rootDirectory := some (normalizeRootAnswer env.cwd rDirectory) })
  else ([], Except.ok config)

/-- Lines 160-169: when `config.globPatterns` is falsy, ask for the extensions
to cache and store the one-element glob-pattern list. -/
def globStep (env : Env) (config : Config) : RunOut Config :=
  if !listIsSet config.globPatterns then
    andThen ([Event.askExtensions (config.rootDirectory.getD "")],
        env.extensionsAnswer) fun extensionsToCache =>
      let pat := env.globPattern (config.rootDirectory.getD "") extensionsToCache
      ([], Except.ok { config with globPatterns := some [pat] })
  else ([], Except.ok config)

/-- Lines 170-181: when `config.dest` is falsy, ask for the service-worker
name, set `dest = path.join(rootDirectory, swName)` and `globIgnores = [dest]`. -/
def destStep (env : Env) (config : Config) : RunOut Config :=
  if !strIsSet config.dest then
    andThen ([Event.askSWName], env.swNameAnswer) fun swName =>
      let swDest := pathJoin [config.rootDirectory.getD "", swName]
      ([], Except.ok { config with dest := some swDest, globIgnores := some [swDest] })
  else ([], Except.ok config)

/-- Lines 182-193: when the configuration was not loaded from a saved file,
ask whether to save it (otherwise the answer is the literal `false`); when the
answer is truthy, persist the configuration via `saveConfigFile`. -/
def saveStep (env : Env) (config : Config) : RunOut Unit :=
  andThen
    (if !config.wasSaved then ([Event.askSaveConfig], env.saveAnswer)
     else ([], Except.ok false))
    fun saveConfig =>
      if saveConfig then ([Event.saveConfig config], env.saveResult)
      else ([], Except.ok ())

namespace SWCli

/-- `SWCli._generateSW` (src/index.js lines 138-197): the five chained steps
followed by `swBuild.generateSW(config)`. -/
def generateSW (env : Env) : RunOut Unit :=
  andThen (loadConfigStep env) fun c1 =>
  andThen (rootStep env c1) fun c2 =>
  andThen (globStep env c2) fun c3 =>
  andThen (destStep env c3) fun c4 =>
  andThen (saveStep env c4) fun _ =>
  ([Event.generateSW c4], env.generateSWResult)

/-- `SWCli._generateBuildManifest` (src/index.js lines 204-233): always ask
for the root directory, the extensions and the manifest name, then invoke
`swBuild.generateFileManifest` with the four-field object literal. -/
def generateBuildManifest (env : Env) : RunOut Unit :=
  andThen ([Event.askRoot], env.rootAnswer) fun rootDirPath =>
  andThen ([Event.askExtensions rootDirPath], env.extensionsAnswer)
    fun fileExtentionsToCache =>
  andThen ([Event.askManifestName], env.manifestNameAnswer) fun fileManifestName =>
  ([Event.generateFileManifest {
      rootDirectory := rootDirPath,
      globPatterns := [env.globPattern rootDirPath fileExtentionsToCache],
      globIgnores := [pathJoin [rootDirPath, fileManifestName]],
      dest := pathJoin [rootDirPath, fileManifestName] }],
   env.generateFileManifestResult)

/-- `SWCli.handleCommand` (src/index.js lines 121-131): dispatch on the exact
command string; anything else logs an invalid-command error (the source's
message, typo included) and rejects. -/
def handleCommand (env : Env) (command : String) : RunOut Unit :=
  if command = "generate:sw" then generateSW env
  else if command = "generate:manifest" then generateBuildManifest env
  else ([Event.logError ("Invlaid command given " ++ command)], Except.error ())

end SWCli

/-- The minimist result consumed by `argv`: the positional tokens `_` and the
four flag fields `index.js` reads, as truthiness. -/
structure CliArgs where
  positional : List String := []
  h : Bool := false
  help : Bool := false
  v : Bool := false
  version : Bool := false
  deriving Repr, DecidableEq

namespace SWCli

/-- `SWCli.handleFlag` (src/index.js lines 92-111): print the help text when
`-h`/`--help` is set, print the version when `-v`/`--version` is set, resolve
when either fired, otherwise fall back to printing the help text and reject.
The `handled` flag is threaded exactly as the source mutates it. -/
def handleFlag (flags : CliArgs) : RunOut Unit :=
  let handled := false
  let step1 := if flags.h || flags.help then ([Event.logHelp], true)
               else (([] : List Event), handled)
  let step2 := if flags.v || flags.version then ([Event.logVersion pkgVersion], true)
               else (([] : List Event), step1.2)
  if step2.2 then (step1.1 ++ step2.1, Except.ok ())
  else (step1.1 ++ step2.1 ++ [Event.logHelp], Except.error ())

/-- The branch of `SWCli.argv` (src/index.js lines 55-67): a command when
`cliArgs._` is non-empty (the first positional token, the rest are the
command's arguments), otherwise flag-only handling. -/
def handler (env : Env) (args : CliArgs) : RunOut Unit :=
  if args.positional.length > 0 then handleCommand env (args.positional.headD "")
  else handleFlag args

end SWCli

/-- The `process.exit` argument of `SWCli.argv`: `0` when the handler promise
resolved, `1` when it rejected. -/
def exitCode : Except Unit Unit → Nat
  | Except.ok _ => 0
  | Except.error _ => 1

namespace SWCli

/-- `SWCli.argv` (src/index.js lines 52-75): run the handler and terminate the
process with `0` on resolution, `1` on rejection.  (The `updateNotifier`
side effect touches no claim and is not traced.) -/
def argv (env : Env) (args : CliArgs) : List Event × Nat :=
  ((handler env args).1, exitCode (handler env args).2)

end SWCli

/-- Modelled from the spec: argv tokenisation is done by the external
`minimist` package (an npm dependency, not part of this repository).  §4.1's
dispatcher contract — "parse the first non-flag token as a command name …; all
other tokens are flags" — is embedded: `--help`/`--version`/`-h`/`-v` set their
flags, other `-`-prefixed tokens are flags `index.js` never reads, and every
remaining token is positional. -/
def parseArgv (argv : List String) : CliArgs :=
  argv.foldl (fun acc tok =>
    if tok = "-h" then { acc with h := true }
    else if tok = "--help" then { acc with help := true }
    else if tok = "-v" then { acc with v := true }
    else if tok = "--version" then { acc with version := true }
    else if tok.data.head? = some '-' then acc
    else { acc with positional := acc.positional ++ [tok] }) {}

/-- Does a configuration "have a globIgnores field that contains its dest
value" (the invariant of spec §3 for the service-worker delegate call)? -/
def ignoresOwnDest (c : Config) : Bool :=
  match c.globIgnores, c.dest with
  | some gi, some d => gi.contains d
  | _, _ => false

/-- Is `dest` left unsupplied by the loaded configuration (absent, empty, or
no configuration file at all / a rejected load)?  Exactly when this holds does
`_generateSW`'s dest step run (if reached). -/
def savedDestUnset (env : Env) : Bool :=
  match env.savedConfig with
  | Except.ok (some sc) => !strIsSet sc.dest
  | _ => true

/-! ### Helper lemmas -/

theorem andThen_fst_mem {α β : Type} (x : RunOut α) (f : α → RunOut β) (e : Event) :
    e ∈ (andThen x f).1 ↔ e ∈ x.1 ∨ ∃ a, x.2 = Except.ok a ∧ e ∈ (f a).1 := by
  rcases x with ⟨tr, r⟩
  cases r <;> simp [andThen]

theorem loadConfigStep_fst (env : Env) : (loadConfigStep env).1 = [Event.getConfig] := by
  rcases h : env.savedConfig with e | osc
  · cases e; simp [loadConfigStep, andThen, h]
  · rcases osc with _ | sc <;> simp [loadConfigStep, andThen, h]

theorem loadConfigStep_ok_iff (env : Env) (c1 : Config) :
    (loadConfigStep env).2 = Except.ok c1 ↔
      (env.savedConfig = Except.ok none ∧ c1 = {})
      ∨ (∃ sc, env.savedConfig = Except.ok (some sc) ∧ c1 = { sc with wasSaved := true }) := by
  rcases h : env.savedConfig with e | osc
  · cases e; simp [loadConfigStep, andThen, h]
  · rcases osc with _ | sc <;> simp [loadConfigStep, andThen, h, eq_comm]

theorem rootStep_mem (env : Env) (c : Config) (e : Event) :
    e ∈ (rootStep env c).1 ↔ strIsSet c.rootDirectory = false ∧ e = Event.askRoot := by
  cases h : strIsSet c.rootDirectory <;> rcases ha : env.rootAnswer with e2 | a <;>
    simp [rootStep, andThen, h, ha]

theorem rootStep_ok_iff (env : Env) (c c2 : Config) :
    (rootStep env c).2 = Except.ok c2 ↔
      (strIsSet c.rootDirectory = true ∧ c2 = c)
      ∨ (strIsSet c.rootDirectory = false ∧ ∃ a, env.rootAnswer = Except.ok a
          ∧ c2 = { c with rootDirectory := some (normalizeRootAnswer env.cwd a) }) := by
  cases h : strIsSet c.rootDirectory <;> rcases ha : env.rootAnswer with e2 | a <;>
    simp [rootStep, andThen, h, ha, eq_comm]

theorem globStep_mem (env : Env) (c : Config) (e : Event) :
    e ∈ (globStep env c).1 ↔
      listIsSet c.globPatterns = false ∧ e = Event.askExtensions (c.rootDirectory.getD "") := by
  cases h : listIsSet c.globPatterns <;> rcases ha : env.extensionsAnswer with e2 | a <;>
    simp [globStep, andThen, h, ha]

theorem globStep_ok_iff (env : Env) (c c2 : Config) :
    (globStep env c).2 = Except.ok c2 ↔
      (listIsSet c.globPatterns = true ∧ c2 = c)
      ∨ (listIsSet c.globPatterns = false ∧ ∃ a, env.extensionsAnswer = Except.ok a
          ∧ c2 = { c with globPatterns := some ([env.globPattern (c.rootDirectory.getD "") a]) }) := by
  cases h : listIsSet c.globPatterns <;> rcases ha : env.extensionsAnswer with e2 | a <;>
    simp [globStep, andThen, h, ha, eq_comm]

theorem destStep_mem (env : Env) (c : Config) (e : Event) :
    e ∈ (destStep env c).1 ↔ strIsSet c.dest = false ∧ e = Event.askSWName := by
  cases h : strIsSet c.dest <;> rcases ha : env.swNameAnswer with e2 | a <;>
    simp [destStep, andThen, h, ha]

theorem destStep_ok_iff (env : Env) (c c2 : Config) :
    (destStep env c).2 = Except.ok c2 ↔
      (strIsSet c.dest = true ∧ c2 = c)
      ∨ (strIsSet c.dest = false ∧ ∃ a, env.swNameAnswer = Except.ok a
          ∧ c2 = { c with dest := some (pathJoin [c.rootDirectory.getD "", a]),
                          globIgnores := some [pathJoin [c.rootDirectory.getD "", a]] }) := by
  cases h : strIsSet c.dest <;> rcases ha : env.swNameAnswer with e2 | a <;>
    simp [destStep, andThen, h, ha, eq_comm]

theorem saveStep_mem (env : Env) (c : Config) (e : Event) :
    e ∈ (saveStep env c).1 ↔
      c.wasSaved = false
      ∧ (e = Event.askSaveConfig
          ∨ (env.saveAnswer = Except.ok true ∧ e = Event.saveConfig c)) := by
  cases h : c.wasSaved <;> rcases ha : env.saveAnswer with e2 | b
  · cases e2; simp [saveStep, andThen, h, ha]
  · cases b <;> simp [saveStep, andThen, h, ha]
  · cases e2; simp [saveStep, andThen, h, ha]
  · cases b <;> simp [saveStep, andThen, h, ha]

theorem rootStep_ok_preserve (env : Env) {c c2 : Config}
    (h : (rootStep env c).2 = Except.ok c2) :
    c2.globPatterns = c.globPatterns ∧ c2.globIgnores = c.globIgnores
    ∧ c2.dest = c.dest ∧ c2.wasSaved = c.wasSaved := by
  rw [rootStep_ok_iff] at h
  rcases h with ⟨_, rfl⟩ | ⟨_, a, _, rfl⟩ <;> simp

theorem globStep_ok_preserve (env : Env) {c c2 : Config}
    (h : (globStep env c).2 = Except.ok c2) :
    c2.rootDirectory = c.rootDirectory ∧ c2.globIgnores = c.globIgnores
    ∧ c2.dest = c.dest ∧ c2.wasSaved = c.wasSaved := by
  rw [globStep_ok_iff] at h
  rcases h with ⟨_, rfl⟩ | ⟨_, a, _, rfl⟩ <;> simp

theorem destStep_ok_preserve (env : Env) {c c2 : Config}
    (h : (destStep env c).2 = Except.ok c2) :
    c2.rootDirectory = c.rootDirectory ∧ c2.globPatterns = c.globPatterns
    ∧ c2.wasSaved = c.wasSaved := by
  rw [destStep_ok_iff] at h
  rcases h with ⟨_, rfl⟩ | ⟨_, a, _, rfl⟩ <;> simp

/-- Decomposition of a `saveConfig` event in a `_generateSW` trace: every step
up to the save resolved, the configuration at the save prompt had `wasSaved`
unset, and the user answered yes. -/
theorem generateSW_saveConfig_mem (env : Env) (c : Config)
    (hmem : Event.saveConfig c ∈ (SWCli.generateSW env).1) :
    ∃ c1 c2 c3 c4,
      (loadConfigStep env).2 = Except.ok c1 ∧ (rootStep env c1).2 = Except.ok c2
      ∧ (globStep env c2).2 = Except.ok c3 ∧ (destStep env c3).2 = Except.ok c4
      ∧ c4.wasSaved = false ∧ env.saveAnswer = Except.ok true ∧ c = c4 := by
  simp only [SWCli.generateSW, andThen_fst_mem, loadConfigStep_fst, rootStep_mem,
    globStep_mem, destStep_mem, saveStep_mem, List.mem_singleton, List.mem_cons,
    List.not_mem_nil, reduceCtorEq, or_false, false_or, false_and, and_false,
    exists_false, Event.saveConfig.injEq, exists_and_left] at hmem
  obtain ⟨c1, h1, c2, h2, c3, h3, c4, h4, hws, hsa, hc⟩ := hmem
  exact ⟨c1, c2, c3, c4, h1, h2, h3, h4, hws, hsa, hc⟩

/-- Decomposition of a `generateSW` delegate event in a `_generateSW` trace:
it is the final call, after every step resolved. -/
theorem generateSW_delegate_mem (env : Env) (c : Config)
    (hmem : Event.generateSW c ∈ (SWCli.generateSW env).1) :
    ∃ c1 c2 c3,
      (loadConfigStep env).2 = Except.ok c1 ∧ (rootStep env c1).2 = Except.ok c2
      ∧ (globStep env c2).2 = Except.ok c3 ∧ (destStep env c3).2 = Except.ok c := by
  simp only [SWCli.generateSW, andThen_fst_mem, loadConfigStep_fst, rootStep_mem,
    globStep_mem, destStep_mem, saveStep_mem, List.mem_singleton, List.mem_cons,
    List.not_mem_nil, reduceCtorEq, or_false, false_or, false_and, and_false,
    exists_false, Event.generateSW.injEq, exists_and_left] at hmem
  obtain ⟨c1, h1, c2, h2, c3, h3, c4, h4, a, hsv, hc⟩ := hmem
  subst hc
  exact ⟨c1, c2, c3, h1, h2, h3, h4⟩

/-! ### Concrete inputs used by witnesses and counterexamples -/

/-- A flag-only invocation with `--help` set. -/
def argsHelp : CliArgs := { help := true }

/-- A flag-only invocation with `-h` and `--version` both set. -/
def argsBoth : CliArgs := { h := true, version := true }

/-- An invocation with the positional token `generate:sw`. -/
def argsCmd : CliArgs := { positional := ["generate:sw"] }

/-- A fresh-run environment where every question is answered and the user
agrees to save the configuration. -/
def envFresh : Env :=
  { savedConfig := Except.ok none, rootAnswer := Except.ok "site",
    extensionsAnswer := Except.ok ["html"], swNameAnswer := Except.ok "sw.js",
    saveAnswer := Except.ok true }

/-- A saved configuration supplying all three prompted fields. -/
def scFull : Config :=
  { rootDirectory := some "./", globPatterns := some ["p"],
    globIgnores := some ["sw.js"], dest := some "sw.js" }

/-- An environment whose config store holds `scFull`; every question would
resolve if asked. -/
def envSaved : Env :=
  { savedConfig := Except.ok (some scFull), rootAnswer := Except.ok "",
    extensionsAnswer := Except.ok [], swNameAnswer := Except.ok "",
    saveAnswer := Except.ok true }

/-! ### Claims -/

/-- Claim C1: for every invocation of `argv`, the process exits with status 0
exactly when the handler promise (command handler in command mode, flag
handler in flag-only mode) resolves, with status 1 exactly when it rejects,
and no other exit status is possible. -/
theorem claim_C1_exit_codes (env : Env) (args : CliArgs) :
    ((SWCli.argv env args).2 = 0 ∨ (SWCli.argv env args).2 = 1)
    ∧ ((SWCli.argv env args).2 = 0 ↔ (SWCli.handler env args).2 = Except.ok ())
    ∧ ((SWCli.argv env args).2 = 1 ↔ (SWCli.handler env args).2 = Except.error ()) := by
  rcases h : (SWCli.handler env args).2 with e | a
  · cases e; simp [SWCli.argv, exitCode, h]
  · cases a; simp [SWCli.argv, exitCode, h]

/-- Claim C2: for every command string other than `generate:sw` and
`generate:manifest`, `handleCommand` logs the invalid-command error and
returns a rejected promise, so the process exits with code 1. -/
theorem claim_C2_invalid_command (env : Env) (command : String)
    (h1 : command ≠ "generate:sw") (h2 : command ≠ "generate:manifest") :
    SWCli.handleCommand env command
      = ([Event.logError ("Invlaid command given " ++ command)], Except.error ())
    ∧ (SWCli.argv env { positional := [command] }).2 = 1 := by
  constructor
  · simp [SWCli.handleCommand, h1, h2]
  · simp [SWCli.argv, SWCli.handler, SWCli.handleCommand, exitCode, h1, h2]

/-- Witness for C2 at the concrete command `build`. -/
theorem claim_C2_witness :
    SWCli.handleCommand {} "build"
      = ([Event.logError ("Invlaid command given " ++ "build")], Except.error ())
    ∧ (SWCli.argv {} { positional := ["build"] }).2 = 1 :=
  claim_C2_invalid_command {} "build" (by decide) (by decide)

/-- Claim C3: in flag-only mode (no positional token), a set help flag prints
the help text and the run succeeds (exit 0); a set version flag prints the
package version and the run succeeds; with neither flag the help text is
printed and the run rejects (exit 1). -/
theorem claim_C3_flag_only (env : Env) (args : CliArgs) (hpos : args.positional = []) :
    ((args.h || args.help) = true →
        Event.logHelp ∈ (SWCli.argv env args).1 ∧ (SWCli.argv env args).2 = 0)
    ∧ ((args.v || args.version) = true →
        Event.logVersion pkgVersion ∈ (SWCli.argv env args).1 ∧ (SWCli.argv env args).2 = 0)
    ∧ ((args.h || args.help) = false → (args.v || args.version) = false →
        Event.logHelp ∈ (SWCli.argv env args).1 ∧ (SWCli.argv env args).2 = 1) := by
  rcases args with ⟨pos, h, help, v, version⟩
  simp only at hpos
  subst hpos
  cases h <;> cases help <;> cases v <;> cases version <;>
    simp [SWCli.argv, SWCli.handler, SWCli.handleFlag, exitCode]

/-- Witness for C3 at a `--help`-only invocation. -/
theorem claim_C3_witness :
    ((argsHelp.h || argsHelp.help) = true →
        Event.logHelp ∈ (SWCli.argv {} argsHelp).1 ∧ (SWCli.argv {} argsHelp).2 = 0)
    ∧ ((argsHelp.v || argsHelp.version) = true →
        Event.logVersion pkgVersion ∈ (SWCli.argv {} argsHelp).1
        ∧ (SWCli.argv {} argsHelp).2 = 0)
    ∧ ((argsHelp.h || argsHelp.help) = false → (argsHelp.v || argsHelp.version) = false →
        Event.logHelp ∈ (SWCli.argv {} argsHelp).1 ∧ (SWCli.argv {} argsHelp).2 = 1) :=
  claim_C3_flag_only {} argsHelp rfl

/-- Claim C9: with at least one positional token the invocation is handled
exclusively as a command — the handler is `handleCommand` on the first
positional token, whatever the flag fields hold — and in particular an argv
of `generate:sw --help` runs the service-worker workflow, not the help text. -/
theorem claim_C9_command_mode (env : Env) (args : CliArgs)
    (hpos : args.positional ≠ []) :
    SWCli.handler env args = SWCli.handleCommand env (args.positional.headD "")
    ∧ SWCli.handler env (parseArgv ["generate:sw", "--help"]) = SWCli.generateSW env := by
  constructor
  · have hl : 0 < args.positional.length := List.length_pos.mpr hpos
    simp [SWCli.handler, hl]
  · rfl

/-- Witness for C9 at the concrete invocation `generate:sw`. -/
theorem claim_C9_witness :
    SWCli.handler {} argsCmd = SWCli.handleCommand {} (argsCmd.positional.headD "")
    ∧ SWCli.handler {} (parseArgv ["generate:sw", "--help"]) = SWCli.generateSW {} :=
  claim_C9_command_mode {} argsCmd (by decide)

/-- Claim C10: in flag-only mode with both a help flag and a version flag set,
the help text and then the version are printed and the run succeeds with
exit code 0. -/
theorem claim_C10_help_and_version (env : Env) (args : CliArgs)
    (hpos : args.positional = []) (hh : (args.h || args.help) = true)
    (hv : (args.v || args.version) = true) :
    (SWCli.argv env args).1 = [Event.logHelp, Event.logVersion pkgVersion]
    ∧ (SWCli.argv env args).2 = 0 := by
  rcases args with ⟨pos, h, help, v, version⟩
  simp only at hpos hh hv
  subst hpos
  cases h <;> cases help <;> cases v <;> cases version <;>
    simp_all [SWCli.argv, SWCli.handler, SWCli.handleFlag, exitCode]

/-- Witness for C10 at `-h --version`. -/
theorem claim_C10_witness :
    (SWCli.argv {} argsBoth).1 = [Event.logHelp, Event.logVersion pkgVersion]
    ∧ (SWCli.argv {} argsBoth).2 = 0 :=
  claim_C10_help_and_version {} argsBoth rfl rfl rfl

/-- Claim C4 (code-bug evaluation): the root-directory normalisation maps the
answer `''` to `./` as documented, but maps the answer `build` to `build/`,
not to the `./build/` promised by the claim and by the source's own comment —
Node's `path.join` normalisation strips the leading `./`. -/
theorem claim_C4_normalization_eval :
    normalizeRootAnswer "/app" "" = "./"
    ∧ normalizeRootAnswer "/app" "build" = "build/"
    ∧ normalizeRootAnswer "/app" "build" ≠ "./build/"
    ∧ (rootStep { rootAnswer := Except.ok "build" } {}).2
        = Except.ok { rootDirectory := some "build/" } :=
  ⟨rfl, rfl, by decide, rfl⟩

/-- A saved configuration that supplies `dest` (and the other prompted fields)
but whose `globIgnores` does not contain `dest`. -/
def scNoIgnores : Config :=
  { rootDirectory := some "./", globPatterns := some ["p"],
    globIgnores := some [], dest := some "sw.js" }

/-- An environment whose config store holds `scNoIgnores`. -/
def envNoIgnores : Env := { savedConfig := Except.ok (some scNoIgnores) }

/-- Counterexample to C5 as stated: with a saved configuration that supplies
`dest` but a `globIgnores` without it, `_generateSW` passes the loaded
configuration to the delegate unchecked, and its `globIgnores` does not
contain its `dest`. -/
theorem claim_C5_counterexample :
    Event.generateSW { scNoIgnores with wasSaved := true }
      ∈ (SWCli.generateSW envNoIgnores).1
    ∧ ignoresOwnDest { scNoIgnores with wasSaved := true } = false := by
  decide

/-- Claim C5 as amended: the configuration handed to the build delegate has a
`globIgnores` containing its `dest` always in the `generate:manifest` workflow,
and in the `generate:sw` workflow whenever the loaded configuration does not
itself supply `dest` (in particular on every fresh run); a saved configuration
supplying `dest` is passed through as loaded. -/
theorem claim_C5_amended_self_ignore (env : Env) :
    (∀ mc, Event.generateFileManifest mc ∈ (SWCli.generateBuildManifest env).1 →
        mc.globIgnores.contains mc.dest = true)
    ∧ (savedDestUnset env = true →
        ∀ c, Event.generateSW c ∈ (SWCli.generateSW env).1 → ignoresOwnDest c = true) := by
  constructor
  · intro mc hmem
    simp only [SWCli.generateBuildManifest, andThen_fst_mem, List.mem_singleton,
      List.mem_cons, List.not_mem_nil, reduceCtorEq, or_false, false_or, false_and,
      and_false, exists_false, Event.generateFileManifest.injEq] at hmem
    obtain ⟨ra, hra, ea, hea, na, hna, rfl⟩ := hmem
    simp [List.contains]
  · intro hunset c hmem
    obtain ⟨c1, c2, c3, h1, h2, h3, h4⟩ := generateSW_delegate_mem env c hmem
    have hd2 := (rootStep_ok_preserve env h2).2.2.1
    have hd3 := (globStep_ok_preserve env h3).2.2.1
    rw [loadConfigStep_ok_iff] at h1
    have hdest : strIsSet c3.dest = false := by
      rcases h1 with ⟨hS, rfl⟩ | ⟨sc, hS, rfl⟩
      · simp [hd3, hd2, strIsSet]
      · have hsc : strIsSet sc.dest = false := by
          simpa [savedDestUnset, hS] using hunset
        rw [hd3, hd2]
        simpa using hsc
    rw [destStep_ok_iff] at h4
    rcases h4 with ⟨hT, rfl⟩ | ⟨_, a, _, rfl⟩
    · simp [hdest] at hT
    · simp [ignoresOwnDest, List.contains]

/-- Claim C6: the configuration is persisted exactly when no saved
configuration was loaded (so `wasSaved` stays unset) and the user answers yes
to the save prompt; and whenever the load or any earlier prompt rejects, no
save ever occurs. -/
theorem claim_C6_save_iff (env : Env) (c : Config) :
    (Event.saveConfig c ∈ (SWCli.generateSW env).1 →
        env.savedConfig = Except.ok none ∧ c.wasSaved = false
        ∧ env.saveAnswer = Except.ok true)
    ∧ (env.savedConfig = Except.ok none →
        (∃ a, env.rootAnswer = Except.ok a) →
        (∃ a, env.extensionsAnswer = Except.ok a) →
        (∃ a, env.swNameAnswer = Except.ok a) →
        env.saveAnswer = Except.ok true →
        ∃ c2, Event.saveConfig c2 ∈ (SWCli.generateSW env).1)
    ∧ ((env.savedConfig = Except.error () ∨ env.rootAnswer = Except.error ()
        ∨ env.extensionsAnswer = Except.error () ∨ env.swNameAnswer = Except.error ()) →
        ∀ c2, Event.saveConfig c2 ∉ (SWCli.generateSW env).1) := by
  refine ⟨?_, ?_, ?_⟩
  · intro hmem
    obtain ⟨c1, c2, c3, c4, h1, h2, h3, h4, hws, hsa, rfl⟩ :=
      generateSW_saveConfig_mem env c hmem
    have hw2 := (rootStep_ok_preserve env h2).2.2.2
    have hw3 := (globStep_ok_preserve env h3).2.2.2
    have hw4 := (destStep_ok_preserve env h4).2.2
    rw [loadConfigStep_ok_iff] at h1
    rcases h1 with ⟨hS, rfl⟩ | ⟨sc, hS, rfl⟩
    · exact ⟨hS, hws, hsa⟩
    · rw [hw4, hw3, hw2] at hws
      simp at hws
  · rintro hS ⟨ra, hra⟩ ⟨ea, hea⟩ ⟨na, hna⟩ hsv
    rcases hsr : env.saveResult with e | u
    · cases e
      simp [SWCli.generateSW, loadConfigStep, rootStep, globStep, destStep, saveStep,
        andThen, hS, hra, hea, hna, hsv, hsr, strIsSet, listIsSet]
    · cases u
      simp [SWCli.generateSW, loadConfigStep, rootStep, globStep, destStep, saveStep,
        andThen, hS, hra, hea, hna, hsv, hsr, strIsSet, listIsSet]
  · rintro (hS | hra | hea | hna) c2 hmem <;>
      obtain ⟨c1, d2, d3, d4, h1, h2, h3, h4, hws, hsa, rfl⟩ :=
        generateSW_saveConfig_mem env c2 hmem
    · rw [loadConfigStep_ok_iff] at h1
      simp [hS] at h1
    · have hw2 := (rootStep_ok_preserve env h2).2.2.2
      have hw3 := (globStep_ok_preserve env h3).2.2.2
      have hw4 := (destStep_ok_preserve env h4).2.2
      rw [loadConfigStep_ok_iff] at h1
      rcases h1 with ⟨hS, rfl⟩ | ⟨sc, hS, rfl⟩
      · rw [rootStep_ok_iff] at h2
        simp [hra, strIsSet] at h2
      · rw [hw4, hw3, hw2] at hws
        simp at hws
    · have hw2 := (rootStep_ok_preserve env h2).2.2.2
      have hw3 := (globStep_ok_preserve env h3).2.2.2
      have hw4 := (destStep_ok_preserve env h4).2.2
      rw [loadConfigStep_ok_iff] at h1
      rcases h1 with ⟨hS, rfl⟩ | ⟨sc, hS, rfl⟩
      · have hgp := (rootStep_ok_preserve env h2).1
        rw [globStep_ok_iff] at h3
        simp [hea, hgp, listIsSet] at h3
      · rw [hw4, hw3, hw2] at hws
        simp at hws
    · have hw2 := (rootStep_ok_preserve env h2).2.2.2
      have hw3 := (globStep_ok_preserve env h3).2.2.2
      have hw4 := (destStep_ok_preserve env h4).2.2
      rw [loadConfigStep_ok_iff] at h1
      rcases h1 with ⟨hS, rfl⟩ | ⟨sc, hS, rfl⟩
      · have hde := (rootStep_ok_preserve env h2).2.2.1
        have hde2 := (globStep_ok_preserve env h3).2.2.1
        rw [destStep_ok_iff] at h4
        simp [hna, hde2, hde, strIsSet] at h4
      · rw [hw4, hw3, hw2] at hws
        simp at hws

/-- Claim C7: in `generate:sw`, with a loaded configuration `sc` and every
prompt answered, each interactive prompt fires exactly when its configuration
field is unset (root directory for `rootDirectory`, extensions for
`globPatterns`, service-worker name for `dest`); the whole trace is exactly
the load, then whichever of the three prompts fire in that fixed order — root
directory, extensions, service-worker name — then the delegate call, with no
save prompt; and when the saved configuration supplies all three fields the
run is exactly `getConfig` followed by the delegate call on the loaded
configuration. -/
theorem claim_C7_prompts_iff_unset (env : Env) (sc : Config) (ra na : String)
    (ea : List String)
    (hsaved : env.savedConfig = Except.ok (some sc))
    (hra : env.rootAnswer = Except.ok ra)
    (hea : env.extensionsAnswer = Except.ok ea)
    (hna : env.swNameAnswer = Except.ok na) :
    (Event.askRoot ∈ (SWCli.generateSW env).1 ↔ strIsSet sc.rootDirectory = false)
    ∧ ((∃ r, Event.askExtensions r ∈ (SWCli.generateSW env).1)
        ↔ listIsSet sc.globPatterns = false)
    ∧ (Event.askSWName ∈ (SWCli.generateSW env).1 ↔ strIsSet sc.dest = false)
    ∧ (∃ c4 r, (SWCli.generateSW env).1
        = [Event.getConfig]
          ++ (if strIsSet sc.rootDirectory then [] else [Event.askRoot])
          ++ (if listIsSet sc.globPatterns then [] else [Event.askExtensions r])
          ++ (if strIsSet sc.dest then [] else [Event.askSWName])
          ++ [Event.generateSW c4])
    ∧ (strIsSet sc.rootDirectory = true → listIsSet sc.globPatterns = true →
        strIsSet sc.dest = true →
        SWCli.generateSW env
          = ([Event.getConfig, Event.generateSW { sc with wasSaved := true }],
            env.generateSWResult)) := by
  cases hr : strIsSet sc.rootDirectory <;> cases hg : listIsSet sc.globPatterns <;>
    cases hd : strIsSet sc.dest <;>
    simp [SWCli.generateSW, loadConfigStep, rootStep, globStep, destStep, saveStep,
      andThen, hsaved, hra, hea, hna, hr, hg, hd]

/-- Witness for C7 at a saved configuration supplying all three fields. -/
theorem claim_C7_witness :
    (Event.askRoot ∈ (SWCli.generateSW envSaved).1 ↔ strIsSet scFull.rootDirectory = false)
    ∧ ((∃ r, Event.askExtensions r ∈ (SWCli.generateSW envSaved).1)
        ↔ listIsSet scFull.globPatterns = false)
    ∧ (Event.askSWName ∈ (SWCli.generateSW envSaved).1 ↔ strIsSet scFull.dest = false)
    ∧ (∃ c4 r, (SWCli.generateSW envSaved).1
        = [Event.getConfig]
          ++ (if strIsSet scFull.rootDirectory then [] else [Event.askRoot])
          ++ (if listIsSet scFull.globPatterns then [] else [Event.askExtensions r])
          ++ (if strIsSet scFull.dest then [] else [Event.askSWName])
          ++ [Event.generateSW c4])
    ∧ (strIsSet scFull.rootDirectory = true → listIsSet scFull.globPatterns = true →
        strIsSet scFull.dest = true →
        SWCli.generateSW envSaved
          = ([Event.getConfig, Event.generateSW { scFull with wasSaved := true }],
            envSaved.generateSWResult)) :=
  claim_C7_prompts_iff_unset envSaved scFull "" "" [] rfl rfl rfl rfl

/-- Claim C8: `generate:manifest` never touches the config store (no load, no
save), always asks for root directory, then extensions, then manifest name,
and calls the manifest delegate with exactly the four-field record
`{rootDirectory, globPatterns := [pattern], globIgnores := [manifestPath],
dest := manifestPath}` (a `ManifestConfig`, which has no `wasSaved` field). -/
theorem claim_C8_manifest_workflow (env : Env) :
    Event.getConfig ∉ (SWCli.generateBuildManifest env).1
    ∧ (∀ c, Event.saveConfig c ∉ (SWCli.generateBuildManifest env).1)
    ∧ Event.askRoot ∈ (SWCli.generateBuildManifest env).1
    ∧ (∀ ra, env.rootAnswer = Except.ok ra →
        Event.askExtensions ra ∈ (SWCli.generateBuildManifest env).1)
    ∧ (∀ ra ea, env.rootAnswer = Except.ok ra → env.extensionsAnswer = Except.ok ea →
        Event.askManifestName ∈ (SWCli.generateBuildManifest env).1)
    ∧ (∀ ra ea na, env.rootAnswer = Except.ok ra → env.extensionsAnswer = Except.ok ea →
        env.manifestNameAnswer = Except.ok na →
        SWCli.generateBuildManifest env
          = ([Event.askRoot, Event.askExtensions ra, Event.askManifestName,
              Event.generateFileManifest
                { rootDirectory := ra,
                  globPatterns := [env.globPattern ra ea],
                  globIgnores := [pathJoin [ra, na]],
                  dest := pathJoin [ra, na] }],
            env.generateFileManifestResult)) := by
  refine ⟨?_, ?_, ?_, ?_, ?_, ?_⟩
  · simp [SWCli.generateBuildManifest, andThen_fst_mem]
  · intro c
    simp [SWCli.generateBuildManifest, andThen_fst_mem]
  · simp [SWCli.generateBuildManifest, andThen_fst_mem]
  · intro ra hra
    simp [SWCli.generateBuildManifest, andThen_fst_mem, hra]
  · intro ra ea hra hea
    simp [SWCli.generateBuildManifest, andThen_fst_mem, hra, hea]
  · intro ra ea na hra hea hna
    simp [SWCli.generateBuildManifest, andThen, hra, hea, hna]
